import Mathlib

/-!
Verification development for the INTEARnear/dex repository.

The repository has three Rust crates:
* `tear-sdk` — the shared data model (`SwapRequest`, `SwapResponse`, `AssetId`, ...);
* `example-dex` — the guest module: `SimpleSwap::swap`, a constant-product
  pricing engine over two-asset pools, using the `uint` crate's `U256` for
  wide arithmetic;
* the root crate — the sandboxed execution host: `SandboxedDexEngine::swap`
  loads a stored guest module, links a host-function surface (implemented
  functions plus a large declared-but-unimplemented catalog of traps), runs
  the guest's `swap` export and extracts the response.

This file is a shallow embedding of those parts.  `u128` values are
represented by `Nat`; theorems carry `< 2 ^ 128` bounds where the Rust types
force them.  Fallible paths are represented by `Except String`: a guest-side
`Except.error` models a panic (a `require!` failure or a `uint` arithmetic
panic), which in the sandbox surfaces through `panic_utf8` / a trap; an
`Except.ok` carries the returned `SwapResponse`, which may itself be the
`Error` envelope.
-/

namespace Dex

/-- `AssetId` from `tear-sdk/src/lib.rs`.  NEAR account ids and token ids are
modelled as strings. -/
inductive AssetId where
  | Near : AssetId
  | Nep141 : String → AssetId
  | Nep245 : String → String → AssetId
  | Nep171 : String → String → AssetId
  deriving DecidableEq, Repr

/-- `PoolId` from `tear-sdk`: a plain string. -/
abbrev PoolId := String

/-- `SwapRequestAmount` from `tear-sdk`.  The `U128` payloads become `Nat`. -/
inductive SwapRequestAmount where
  | ExactIn : Nat → SwapRequestAmount
  | ExactOut : Nat → SwapRequestAmount
  deriving DecidableEq, Repr

/-- `SwapRequest` from `tear-sdk`. -/
structure SwapRequest where
  pool_id : PoolId
  asset_in : AssetId
  asset_out : AssetId
  amount : SwapRequestAmount
  deriving DecidableEq, Repr

/-- `SwapResponse` from `tear-sdk`. -/
inductive SwapResponse where
  | Ok : Nat → Nat → SwapResponse
  | Error : String → SwapResponse
  deriving DecidableEq, Repr

/-- Decidable equality of guest results, for concrete evaluations. -/
instance : DecidableEq (Except String SwapResponse) := fun a b =>
  match a, b with
  | .ok x, .ok y =>
      if h : x = y then .isTrue (by rw [h])
      else .isFalse (fun hc => h (Except.ok.inj hc))
  | .error x, .error y =>
      if h : x = y then .isTrue (by rw [h])
      else .isFalse (fun hc => h (Except.error.inj hc))
  | .ok _, .error _ => .isFalse (fun hc => Except.noConfusion hc)
  | .error _, .ok _ => .isFalse (fun hc => Except.noConfusion hc)

/-- `SimplePoolAsset` from `example-dex`: an asset id and a `u128` balance. -/
structure SimplePoolAsset where
  asset_id : AssetId
  balance : Nat
  deriving DecidableEq, Repr

/-- `SimplePool` from `example-dex`: an ordered pair of pool sides. -/
structure SimplePool where
  assets : SimplePoolAsset × SimplePoolAsset
  deriving DecidableEq, Repr

/-- The "in" side balance selected in `SimpleSwap::swap`: with
`first_in = (pool.assets.0.asset_id == asset_in)` (line 52), this is
`if first_in { pool.assets.0.balance } else { pool.assets.1.balance }`
(lines 57–61 and 77–81, identical in both amount branches). -/
def SimplePool.inBalance (pool : SimplePool) (asset_in : AssetId) : Nat :=
  if pool.assets.1.asset_id = asset_in then pool.assets.1.balance
  else pool.assets.2.balance

/-- The "out" side balance selected in `SimpleSwap::swap`:
`if first_in { pool.assets.1.balance } else { pool.assets.0.balance }`
(lines 62–66 and 82–86, identical in both amount branches). -/
def SimplePool.outBalance (pool : SimplePool) (asset_in : AssetId) : Nat :=
  if pool.assets.1.asset_id = asset_in then pool.assets.2.balance
  else pool.assets.1.balance

/-- The `uint` crate's `U256::as_u128`: the conversion panics (here: `none`)
when the value does not fit in 128 bits. -/
def u256AsU128 (v : Nat) : Option Nat :=
  if v < 2 ^ 128 then some v else none

/-- Message of the hard-coded `pool_id == "1"` early return in
`SimpleSwap::swap`. -/
def wasmStubMessage : String :=
  "Everything ok, this message comes from wasm, but the dex itself is not implemented"

/-- Panic message of `U256::as_u128` on overflow (`uint` crate). -/
def castOverflowMessage : String := "Integer overflow when casting to u128"

/-- Panic message of `U256` subtraction on underflow (`uint` crate panics on
overflowing arithmetic instead of wrapping). -/
def subUnderflowMessage : String := "arithmetic operation overflow"

/-- Panic message of `U256` division by zero (`uint` crate). -/
def divByZeroMessage : String := "division by zero"

/-- `SimpleSwap::swap` from `example-dex/src/lib.rs`, lines 31–97.

The contract's pool map `self.pools : LookupMap<PoolId, SimplePool>` is the
`pools` parameter.  `Except.error m` models a guest panic with message `m`
(`require!` failures and `uint` arithmetic panics); `Except.ok r` models the
function returning the `SwapResponse` `r`.

The `U256` intermediates are exact `Nat` arithmetic: with all operands below
`2 ^ 128`, products stay below `2 ^ 256`, so 256-bit arithmetic never
overflows in this function and the only reachable `uint` panics are the
`ExactOut` subtraction underflow, the division by zero when the subtraction
yields zero, and the final `as_u128` casts.  In the `ExactIn` branch the
divisor `in_balance + amount_in` is positive after the `require!`, so the
zero-divisor panic is unreachable there. -/
def SimpleSwap.swap (pools : PoolId → Option SimplePool) (request : SwapRequest) :
    Except String SwapResponse :=
  if request.pool_id = "1" then
    .ok (.Error wasmStubMessage)
  else
    match pools request.pool_id with
    | none => .ok (.Error "Pool not found")
    | some pool =>
      if ¬(pool.assets.1.asset_id = request.asset_in ∨
            pool.assets.2.asset_id = request.asset_in) then
        .error "Invalid asset in"
      else if ¬(pool.assets.1.asset_id = request.asset_out ∨
            pool.assets.2.asset_id = request.asset_out) then
        .error "Invalid asset out"
      else
        -- `first_in = pool.assets.0.asset_id == request.asset_in` (line 52)
        -- is inlined into the `inBalance`/`outBalance` selections.
        match request.amount with
        | .ExactIn amount_in =>
          if ¬(amount_in > 0) then
            .error "Amount must be greater than 0"
          else
            let in_balance := pool.inBalance request.asset_in
            let out_balance := pool.outBalance request.asset_in
            match u256AsU128 (amount_in * out_balance / (in_balance + amount_in)) with
            | none => .error castOverflowMessage
            | some amount_out => .ok (.Ok amount_in amount_out)
        | .ExactOut amount_out =>
          if ¬(amount_out > 0) then
            .error "Amount must be greater than 0"
          else
            let in_balance := pool.inBalance request.asset_in
            let out_balance := pool.outBalance request.asset_in
            if out_balance < amount_out then
              .error subUnderflowMessage
            else if out_balance - amount_out = 0 then
              .error divByZeroMessage
            else
              match u256AsU128 (in_balance * amount_out / (out_balance - amount_out) + 1) with
              | none => .error castOverflowMessage
              | some amount_in => .ok (.Ok amount_in amount_out)

/-- `DexId` from the host crate (`src/lib.rs`): deployer account plus a name. -/
structure DexId where
  deployer : String
  id : String
  deriving DecidableEq, Repr

/-- The host's per-call state `RunnerData` (`src/lib.rs`, lines 73–79),
instantiated at `Request = SwapRequest`, `Response = SwapResponse`.
Registers (`HashMap<u64, Vec<u8>>`) and the persistent storage
(`HashMap<Vec<u8>, Vec<u8>>`) are modelled as partial maps; the byte buffers
that cross the boundary in the modelled host functions are all UTF-8, so
buffers are represented by `String`. -/
structure RunnerData where
  request : SwapRequest
  response : Option SwapResponse
  registers : Nat → Option String
  persistent_storage : String → Option String
  predecessor_id : String

/-- `HashMap::insert` on the register table: last write wins. -/
def insertReg (r : Nat) (v : String) (regs : Nat → Option String) : Nat → Option String :=
  fun i => if i = r then some v else regs i

/-- `HashMap::insert` on the persistent storage map. -/
def insertStore (k v : String) (st : String → Option String) : String → Option String :=
  fun i => if i = k then some v else st i

/-- `HashMap::remove` on the persistent storage map. -/
def removeStore (k : String) (st : String → Option String) : String → Option String :=
  fun i => if i = k then none else st i

/-- JSON string escaping as done by `serde_json` for the strings that occur
here (quote and backslash; control characters do not occur in NEAR account
ids, pool ids or the fixed messages). -/
def jsonEscapeChar (c : Char) : String :=
  if c = '\\' then "\\\\"
  else if c = '"' then "\\\""
  else String.singleton c

/-- JSON string escaping as done by `serde_json` for the strings that occur
here, character by character. -/
def jsonEscape (s : String) : String :=
  String.join (s.data.map jsonEscapeChar)

/-- A JSON string literal. -/
def jsonStr (s : String) : String := "\"" ++ jsonEscape s ++ "\""

/-- `serde_json` serialization of `AssetId` (externally tagged enum; unit
variant as a bare string, newtype variant as a one-entry object, tuple
variants as arrays). -/
def serializeAssetId : AssetId → String
  | .Near => jsonStr "Near"
  | .Nep141 a => "\x7b" ++ jsonStr "Nep141" ++ ":" ++ jsonStr a ++ "\x7d"
  | .Nep245 a t => "\x7b" ++ jsonStr "Nep245" ++ ":[" ++ jsonStr a ++ "," ++ jsonStr t ++ "]\x7d"
  | .Nep171 a t => "\x7b" ++ jsonStr "Nep171" ++ ":[" ++ jsonStr a ++ "," ++ jsonStr t ++ "]\x7d"

/-- `serde_json` serialization of `SwapRequestAmount`; `U128` serializes as a
decimal string. -/
def serializeAmount : SwapRequestAmount → String
  | .ExactIn n => "\x7b" ++ jsonStr "ExactIn" ++ ":" ++ jsonStr (toString n) ++ "\x7d"
  | .ExactOut n => "\x7b" ++ jsonStr "ExactOut" ++ ":" ++ jsonStr (toString n) ++ "\x7d"

/-- The `input` host function's payload:
`serde_json::json!({"request": request}).to_string()` (`src/lib.rs`,
lines 184–188), with object keys in `serde_json`'s default sorted
(`BTreeMap`) order. -/
def serializeRequest (r : SwapRequest) : String :=
  "\x7b" ++ jsonStr "request" ++ ":\x7b" ++
    jsonStr "amount" ++ ":" ++ serializeAmount r.amount ++ "," ++
    jsonStr "asset_in" ++ ":" ++ serializeAssetId r.asset_in ++ "," ++
    jsonStr "asset_out" ++ ":" ++ serializeAssetId r.asset_out ++ "," ++
    jsonStr "pool_id" ++ ":" ++ jsonStr r.pool_id ++ "\x7d\x7d"

/-- One invocation of an implemented host function, at the level of the
decoded values that cross the guest/host boundary (the byte-level
marshalling through guest linear memory and serde is the `wasmi`/serde
layer).  `callUnimplemented name` is a call of the linked trap stub that the
`declare_unimplemented_host_functions!` macro registers for `name`. -/
inductive HostCall where
  | register_len : Nat → HostCall
  | read_register : Nat → HostCall
  | write_register : Nat → String → HostCall
  | input : Nat → HostCall
  | attached_deposit : HostCall
  | predecessor_account_id : Nat → HostCall
  | value_return : SwapResponse → HostCall
  | panic : HostCall
  | panic_utf8 : String → HostCall
  | storage_write : String → String → Nat → HostCall
  | storage_read : String → Nat → HostCall
  | storage_remove : String → Nat → HostCall
  | storage_has_key : String → HostCall
  | callUnimplemented : String → HostCall

/-- The trap message produced by the body generated by
`declare_unimplemented_host_functions!`:
`unimplemented!(concat!("Function ", stringify!(name), " is not implemented"))`. -/
def unimplementedMessage (name : String) : String :=
  "Function " ++ name ++ " is not implemented"

/-- State-transformer semantics of the host functions registered in
`SandboxedDexEngine::swap` (`src/lib.rs`, lines 120–633).  `Except.error`
is a host-side trap that aborts the whole invocation (a Rust panic inside a
host function, or the unimplemented stub).  Return values travel back to the
guest through `wasmi`'s typed returns and, for variable-length data, through
the registers; only the state effect is modelled. -/
def hostStep : HostCall → RunnerData → Except String RunnerData
  | .register_len _, s => .ok s
      -- returns the buffer length, or `u64::MAX` as the absent sentinel
  | .read_register r, s =>
      match s.registers r with
      | none => .error "Invalid register"
      | some _ => .ok s -- copies the buffer into guest memory
  | .write_register r d, s =>
      .ok { s with registers := insertReg r d s.registers }
  | .input r, s =>
      .ok { s with registers := insertReg r (serializeRequest s.request) s.registers }
  | .attached_deposit, s => .ok s
      -- writes the hard-coded zero deposit into guest memory
  | .predecessor_account_id r, s =>
      .ok { s with registers := insertReg r s.predecessor_id s.registers }
  | .value_return v, s =>
      .ok { s with response := some v }
  | .panic, s =>
      .ok { s with response := some (.Error "panicked") }
  | .panic_utf8 m, s =>
      .ok { s with response := some (.Error m) }
  | .storage_write k v r, s =>
      match s.persistent_storage k with
      | some old =>
          .ok { s with persistent_storage := insertStore k v s.persistent_storage,
                       registers := insertReg r old s.registers }
      | none =>
          .ok { s with persistent_storage := insertStore k v s.persistent_storage }
  | .storage_read k r, s =>
      match s.persistent_storage k with
      | some v => .ok { s with registers := insertReg r v s.registers }
      | none => .ok s
  | .storage_remove k r, s =>
      match s.persistent_storage k with
      | some old =>
          .ok { s with persistent_storage := removeStore k s.persistent_storage,
                       registers := insertReg r old s.registers }
      | none => .ok s
  | .storage_has_key _, s => .ok s
  | .callUnimplemented name, _ => .error (unimplementedMessage name)

/-- A guest-side sequence of host calls, run left to right; the first trap
aborts the whole invocation. -/
def runTrace : List HostCall → RunnerData → Except String RunnerData
  | [], s => .ok s
  | c :: cs, s =>
      match hostStep c s with
      | .error e => .error e
      | .ok s' => runTrace cs s'

/-- The response recorded after running a trace, if the trace did not trap. -/
def responseAfter (ops : List HostCall) (s : RunnerData) : Option SwapResponse :=
  match runTrace ops s with
  | .ok s' => s'.response
  | .error _ => none

/-- The names registered with real implementations in
`SandboxedDexEngine::swap`. -/
def implementedNames : List String :=
  ["register_len", "read_register", "write_register", "input",
   "attached_deposit", "predecessor_account_id", "value_return",
   "panic", "panic_utf8",
   "storage_write", "storage_read", "storage_remove", "storage_has_key"]

/-- The declared-but-unimplemented catalog registered by
`declare_unimplemented_host_functions!` (`src/lib.rs`, lines 399–633), in
source order. -/
def unimplementedCatalog : List String :=
  ["current_account_id", "current_contract_code", "refund_to_account_id",
   "signer_account_id", "signer_account_pk", "block_index", "block_timestamp",
   "epoch_height", "storage_usage",
   "account_balance", "account_locked_balance", "prepaid_gas", "used_gas",
   "random_seed", "sha256", "keccak256", "keccak512", "ripemd160",
   "ecrecover", "ed25519_verify",
   "log_utf8", "log_utf16", "abort",
   "promise_create", "promise_then", "promise_and", "promise_batch_create",
   "promise_batch_then",
   "promise_set_refund_to", "promise_batch_action_state_init",
   "promise_batch_action_state_init_by_account_id", "set_state_init_data_entry",
   "promise_batch_action_create_account", "promise_batch_action_deploy_contract",
   "promise_batch_action_function_call", "promise_batch_action_function_call_weight",
   "promise_batch_action_transfer", "promise_batch_action_stake",
   "promise_batch_action_add_key_with_full_access",
   "promise_batch_action_add_key_with_function_call",
   "promise_batch_action_delete_key", "promise_batch_action_delete_account",
   "promise_batch_action_deploy_global_contract",
   "promise_batch_action_deploy_global_contract_by_account_id",
   "promise_batch_action_use_global_contract",
   "promise_batch_action_use_global_contract_by_account_id",
   "promise_yield_create", "promise_yield_resume",
   "promise_results_count", "promise_result", "promise_return",
   "storage_iter_prefix", "storage_iter_range", "storage_iter_next",
   "validator_stake", "validator_total_stake",
   "alt_bn128_g1_multiexp", "alt_bn128_g1_sum", "alt_bn128_pairing_check",
   "bls12381_p1_sum", "bls12381_p2_sum", "bls12381_g1_multiexp",
   "bls12381_g2_multiexp", "bls12381_map_fp_to_g1", "bls12381_map_fp2_to_g2",
   "bls12381_pairing_check", "bls12381_p1_decompress", "bls12381_p2_decompress"]

/-- What the linker binds for an imported name: a real implementation, or the
uniform trap stub naming the function. -/
inductive HostFnKind where
  | implemented : HostFnKind
  | trap : String → HostFnKind
  deriving DecidableEq, Repr

/-- The host function surface under the `env` namespace: every name in the
two catalogs resolves at link time, so a module importing any of them
instantiates; nothing else is registered. -/
def hostFunctionSurface (name : String) : Option HostFnKind :=
  if name ∈ implementedNames then some .implemented
  else if name ∈ unimplementedCatalog then some (.trap (unimplementedMessage name))
  else none

/-- The fixed request synthesized by `SandboxedDexEngine::swap`
(`src/lib.rs`, lines 101–106), independent of the `dex_id` argument and of
the caller. -/
def synthesizedSwapRequest : SwapRequest :=
  { pool_id := "1"
    asset_in := .Near
    asset_out := .Nep141 "wrap.near"
    amount := .ExactIn 1000000000000000000000000 }

/-- The fresh per-call `RunnerData` built in `SandboxedDexEngine::swap`
(`src/lib.rs`, lines 107–117): the synthesized request, no response, empty
registers, a fresh empty storage map, and the caller as predecessor. -/
def initialRunnerData (caller : String) : RunnerData :=
  { request := synthesizedSwapRequest
    response := none
    registers := fun _ => none
    persistent_storage := fun _ => none
    predecessor_id := caller }

/-- The contract-level state of `SandboxedDexEngine` (`src/lib.rs`,
lines 48–53): the code registry, the (unused) balances ledger, and the
per-dex persistent storage registry. -/
structure EngineState where
  codes : DexId → Option (List Nat)
  balances : DexId × AssetId → Option Nat
  storage : DexId → Option (String → Option String)

/-- Panic message of `near_sdk::assert_one_yocto` (dependency code). -/
def assertOneYoctoMessage : String := "Requires attached deposit of 1 yoctoNEAR"

/-- `SandboxedDexEngine::swap` (`src/lib.rs`, lines 92–657), the host entry
point.  `runGuest` abstracts the external `wasmi` capability: module
parsing, instantiation and the invocation of the guest's `swap` export,
turning the code blob and the initial per-call state into either a trap or a
final state; every theorem below quantifies over it.  The entry point:
asserts exactly one yoctoNEAR attached, looks up the code blob, runs the
guest, and extracts the recorded response (`Ok` yields `amount_out`; an
`Error` envelope or a missing response is re-raised as a fatal panic).  The
engine state is returned unchanged on success — nothing in the current code
writes back to `codes`, `balances` or `storage`. -/
def SandboxedDexEngine.swapEntry
    (runGuest : List Nat → RunnerData → Except String RunnerData)
    (st : EngineState) (attached_deposit : Nat) (caller : String) (dex_id : DexId) :
    Except String (Nat × EngineState) :=
  if attached_deposit ≠ 1 then .error assertOneYoctoMessage
  else
    match st.codes dex_id with
    | none => .error "Dex code not found"
    | some code =>
      match runGuest code (initialRunnerData caller) with
      | .error e => .error e
      | .ok s =>
        match s.response with
        | some (.Ok _ amount_out) => .ok (amount_out, st)
        | some (.Error message) => .error ("Error returned from wasm: " ++ message)
        | none => .error "No response from swap"

/-- The end-to-end scenario pool of spec §8: balances 10000 / 10000. -/
def examplePool : SimplePool :=
  ⟨⟨⟨.Near, 10000⟩, ⟨.Nep141 "wrap.near", 10000⟩⟩⟩

/-- A pool map with `examplePool` stored under pool id `"2"`. -/
def examplePools : PoolId → Option SimplePool :=
  fun pid => if pid = "2" then some examplePool else none

/-- A pool map with `examplePool` stored under the hard-coded pool id `"1"`. -/
def poolsAtOne : PoolId → Option SimplePool :=
  fun pid => if pid = "1" then some examplePool else none

/-- The empty pool map. -/
def emptyPools : PoolId → Option SimplePool := fun _ => none

/-- A pool whose in-side balance is the largest `u128` and whose out side is
tiny: `ExactOut` overflows the final `as_u128` cast on it. -/
def maxBalancePool : SimplePool :=
  ⟨⟨⟨.Near, 2 ^ 128 - 1⟩, ⟨.Nep141 "wrap.near", 2⟩⟩⟩

/-- A pool map with `maxBalancePool` under pool id `"2"`. -/
def maxBalancePools : PoolId → Option SimplePool :=
  fun pid => if pid = "2" then some maxBalancePool else none

/-- A pool with a zero first-side balance. -/
def zeroInPool : SimplePool :=
  ⟨⟨⟨.Near, 0⟩, ⟨.Nep141 "wrap.near", 1⟩⟩⟩

/-- A pool with a zero second-side balance. -/
def zeroOutPool : SimplePool :=
  ⟨⟨⟨.Near, 1⟩, ⟨.Nep141 "wrap.near", 0⟩⟩⟩

/-- A pool map with the two degenerate pools under ids `"z1"` and `"z2"`. -/
def zeroPools : PoolId → Option SimplePool :=
  fun pid =>
    if pid = "z1" then some zeroInPool
    else if pid = "z2" then some zeroOutPool
    else none

/-!
## Theorems

Helper lemmas first (shared between claims), then one theorem per claim,
with counterexamples and witnesses.
-/

/-- Evaluation of the `ExactIn` branch: under the guards of
`SimpleSwap::swap`, the swap returns `Ok` with the constant-product output,
provided the result fits in `u128` (which `exactIn_fits` below discharges
for well-formed balances). -/
lemma swap_exactIn_eq
    (pools : PoolId → Option SimplePool) (pid : PoolId) (pool : SimplePool)
    (ain aout : AssetId) (a : Nat)
    (hpid : pid ≠ "1") (hpool : pools pid = some pool)
    (hin : pool.assets.1.asset_id = ain ∨ pool.assets.2.asset_id = ain)
    (hout : pool.assets.1.asset_id = aout ∨ pool.assets.2.asset_id = aout)
    (ha : 0 < a)
    (hfit : a * pool.outBalance ain / (pool.inBalance ain + a) < 2 ^ 128) :
    SimpleSwap.swap pools ⟨pid, ain, aout, .ExactIn a⟩ =
      .ok (.Ok a (a * pool.outBalance ain / (pool.inBalance ain + a))) := by
  unfold SimpleSwap.swap
  simp only [hpid, hpool, hin, hout, ha, u256AsU128, hfit, not_true_eq_false,
    if_false, if_true, ite_true, ite_false, not_false_eq_true, gt_iff_lt]

/-- The `ExactIn` output never exceeds the out-side balance:
`a * bo / (bi + a) ≤ bo`. -/
lemma exactIn_le_outBalance (bi bo a : Nat) (ha : 0 < a) :
    a * bo / (bi + a) ≤ bo := by
  calc a * bo / (bi + a) ≤ a * bo / a :=
        Nat.div_le_div_left (Nat.le_add_left a bi) ha
    _ = bo := Nat.mul_div_cancel_left bo ha

/-- With positive in-balance and out-balance, the `ExactIn` output is
strictly below the out-side balance. -/
lemma exactIn_lt_outBalance (bi bo a : Nat) (ha : 0 < a) (hbi : 0 < bi)
    (hbo : 0 < bo) : a * bo / (bi + a) < bo := by
  rw [Nat.div_lt_iff_lt_mul (by omega : 0 < bi + a)]
  have : a < bi + a := by omega
  calc a * bo < (bi + a) * bo := by
        exact Nat.mul_lt_mul_of_lt_of_le this (Nat.le_refl bo) hbo
    _ = bo * (bi + a) := Nat.mul_comm _ _

/-- For `u128` balances the `ExactIn` output fits in `u128`, so the final
`as_u128` cast never panics in the `ExactIn` branch. -/
lemma exactIn_fits (bi bo a : Nat) (ha : 0 < a) (hbo : bo < 2 ^ 128) :
    a * bo / (bi + a) < 2 ^ 128 :=
  Nat.lt_of_le_of_lt (exactIn_le_outBalance bi bo a ha) hbo

/-- Evaluation of the `ExactOut` branch in the non-panicking case
`0 < amount_out < out_balance` with a `u128`-representable result. -/
lemma swap_exactOut_eq
    (pools : PoolId → Option SimplePool) (pid : PoolId) (pool : SimplePool)
    (ain aout : AssetId) (w : Nat)
    (hpid : pid ≠ "1") (hpool : pools pid = some pool)
    (hin : pool.assets.1.asset_id = ain ∨ pool.assets.2.asset_id = ain)
    (hout : pool.assets.1.asset_id = aout ∨ pool.assets.2.asset_id = aout)
    (hw : 0 < w) (hlt : w < pool.outBalance ain)
    (hfit : pool.inBalance ain * w / (pool.outBalance ain - w) + 1 < 2 ^ 128) :
    SimpleSwap.swap pools ⟨pid, ain, aout, .ExactOut w⟩ =
      .ok (.Ok (pool.inBalance ain * w / (pool.outBalance ain - w) + 1) w) := by
  unfold SimpleSwap.swap
  simp only [hpid, hpool, hin, hout, hw, u256AsU128, hfit, not_true_eq_false,
    if_false, if_true, ite_true, ite_false, not_false_eq_true, gt_iff_lt,
    Nat.not_lt_of_lt hlt, Nat.sub_ne_zero_of_lt hlt]

/-- Evaluation of the `ExactOut` branch when the requested output equals the
out-side balance: the `U256` subtraction yields zero (it does not wrap) and
the following division panics with the `uint` crate's zero-divisor message. -/
lemma swap_exactOut_divzero
    (pools : PoolId → Option SimplePool) (pid : PoolId) (pool : SimplePool)
    (ain aout : AssetId) (w : Nat)
    (hpid : pid ≠ "1") (hpool : pools pid = some pool)
    (hin : pool.assets.1.asset_id = ain ∨ pool.assets.2.asset_id = ain)
    (hout : pool.assets.1.asset_id = aout ∨ pool.assets.2.asset_id = aout)
    (hw : 0 < w) (heq : w = pool.outBalance ain) :
    SimpleSwap.swap pools ⟨pid, ain, aout, .ExactOut w⟩ =
      .error divByZeroMessage := by
  unfold SimpleSwap.swap
  simp only [hpid, hpool, hin, hout, hw, not_true_eq_false,
    if_false, if_true, ite_true, ite_false, not_false_eq_true, gt_iff_lt]
  rw [if_neg (by omega : ¬pool.outBalance ain < w),
    if_pos (by omega : pool.outBalance ain - w = 0)]

/-- Inversion of a successful `ExactIn` swap: the pool was found, the amount
was positive, the returned `amount_in` echoes the request, and `amount_out`
is the constant-product quotient. -/
lemma swap_exactIn_ok_inv
    (pools : PoolId → Option SimplePool) (pid : PoolId)
    (ain aout : AssetId) (x a' y : Nat)
    (h : SimpleSwap.swap pools ⟨pid, ain, aout, .ExactIn x⟩ = .ok (.Ok a' y)) :
    ∃ pool, pools pid = some pool ∧ 0 < x ∧ a' = x ∧
      y = x * pool.outBalance ain / (pool.inBalance ain + x) := by
  unfold SimpleSwap.swap at h
  dsimp only at h
  split at h
  · exact absurd h (by simp)
  split at h
  · exact absurd h (by simp)
  next pool hpool =>
    split at h
    · exact absurd h (by simp)
    split at h
    · exact absurd h (by simp)
    split at h
    · exact absurd h (by simp)
    next hx =>
      split at h
      · exact absurd h (by simp)
      next q hq =>
        unfold u256AsU128 at hq
        split at hq
        · simp only [Option.some.injEq] at hq
          simp only [Except.ok.injEq, SwapResponse.Ok.injEq] at h
          exact ⟨pool, hpool, by omega, h.1.symm, by rw [← h.2, ← hq]⟩
        · exact absurd hq (by simp)

/-- Inversion of a successful `ExactOut` swap: the pool was found, the
requested output is positive and strictly below the out-side balance, and
the returned `amount_in` is the rounded-up quotient plus one. -/
lemma swap_exactOut_ok_inv
    (pools : PoolId → Option SimplePool) (pid : PoolId)
    (ain aout : AssetId) (w a' w' : Nat)
    (h : SimpleSwap.swap pools ⟨pid, ain, aout, .ExactOut w⟩ = .ok (.Ok a' w')) :
    ∃ pool, pools pid = some pool ∧ 0 < w ∧ w' = w ∧
      w < pool.outBalance ain ∧
      a' = pool.inBalance ain * w / (pool.outBalance ain - w) + 1 := by
  unfold SimpleSwap.swap at h
  dsimp only at h
  split at h
  · exact absurd h (by simp)
  split at h
  · exact absurd h (by simp)
  next pool hpool =>
    split at h
    · exact absurd h (by simp)
    split at h
    · exact absurd h (by simp)
    split at h
    · exact absurd h (by simp)
    next hw =>
      split at h
      · exact absurd h (by simp)
      next hnlt =>
        split at h
        · exact absurd h (by simp)
        next hnz =>
          split at h
          · exact absurd h (by simp)
          next q hq =>
            unfold u256AsU128 at hq
            split at hq
            · simp only [Option.some.injEq] at hq
              simp only [Except.ok.injEq, SwapResponse.Ok.injEq] at h
              exact ⟨pool, hpool, by omega, h.2.symm, by omega,
                by rw [← h.1, ← hq]⟩
            · exact absurd hq (by simp)

/-- Floor-division key fact behind both constant-product inequalities: for
`y = a * bo / (bi + a)` and `bo = y + d`, `y * bi ≤ a * d`. -/
lemma exactIn_floor_key (bi bo a y d : Nat)
    (hy_val : y = a * bo / (bi + a)) (hd : bo = y + d) :
    y * bi ≤ a * d := by
  have hfloor : y * (bi + a) ≤ a * bo := by
    rw [hy_val]
    exact Nat.div_mul_le_self _ _
  rw [hd] at hfloor
  have h1 : y * bi + y * a ≤ a * y + a * d := by
    calc y * bi + y * a = y * (bi + a) := (Nat.mul_add y bi a).symm
      _ ≤ a * (y + d) := hfloor
      _ = a * y + a * d := Nat.mul_add a y d
  rw [Nat.mul_comm y a, Nat.add_comm (y * bi) (a * y)] at h1
  exact Nat.le_of_add_le_add_left h1

/-- The constant product does not decrease across an `ExactIn` swap. -/
lemma exactIn_constant_product (bi bo a y : Nat)
    (hy_val : y = a * bo / (bi + a)) (hy : y ≤ bo) :
    bi * bo ≤ (bi + a) * (bo - y) := by
  obtain ⟨d, hd⟩ : ∃ d, bo = y + d := ⟨bo - y, by omega⟩
  have hkey := exactIn_floor_key bi bo a y d hy_val hd
  have hsub : bo - y = d := by omega
  rw [hsub, hd]
  calc bi * (y + d) = bi * y + bi * d := Nat.mul_add bi y d
    _ ≤ a * d + bi * d := by
        refine Nat.add_le_add_right ?_ _
        rw [Nat.mul_comm bi y]
        exact hkey
    _ = (bi + a) * d := by rw [Nat.add_mul, Nat.add_comm (a * d) (bi * d)]

/-- Round-trip bound: feeding the `ExactIn` output `y` back through the
`ExactOut` quotient recovers at most the original input. -/
lemma round_trip_div_le (bi bo x y : Nat)
    (hy_val : y = x * bo / (bi + x)) (hy : y < bo) :
    bi * y / (bo - y) ≤ x := by
  obtain ⟨d, hd, hdpos⟩ : ∃ d, bo = y + d ∧ 0 < d := ⟨bo - y, by omega, by omega⟩
  have hkey := exactIn_floor_key bi bo x y d hy_val hd
  have hsub : bo - y = d := by omega
  rw [hsub, Nat.mul_comm bi y]
  calc y * bi / d ≤ x * d / d := Nat.div_le_div_right hkey
    _ = x := Nat.mul_div_cancel x hdpos

/-- **C1** (amended): for every pool stored under a pool id other than the
hard-coded `"1"`, whose two assets include both `asset_in` and `asset_out`,
and every `ExactIn` request with `amount_in > 0` (amounts and balances being
`u128` values), the guest swap returns `Ok` with
`amount_out = ⌊amount_in · balance_out / (balance_in + amount_in)⌋`, and the
intermediate product `amount_in · balance_out` stays below `2 ^ 256`, so the
256-bit arithmetic never overflows. -/
theorem c1_exactIn_formula
    (pools : PoolId → Option SimplePool) (pid : PoolId) (pool : SimplePool)
    (ain aout : AssetId) (a : Nat)
    (hpid : pid ≠ "1") (hpool : pools pid = some pool)
    (hin : pool.assets.1.asset_id = ain ∨ pool.assets.2.asset_id = ain)
    (hout : pool.assets.1.asset_id = aout ∨ pool.assets.2.asset_id = aout)
    (ha : 0 < a) (ha128 : a < 2 ^ 128)
    (hb1 : pool.assets.1.balance < 2 ^ 128)
    (hb2 : pool.assets.2.balance < 2 ^ 128) :
    SimpleSwap.swap pools ⟨pid, ain, aout, .ExactIn a⟩ =
      .ok (.Ok a (a * pool.outBalance ain / (pool.inBalance ain + a))) ∧
    a * pool.outBalance ain < 2 ^ 256 := by
  have hbo : pool.outBalance ain < 2 ^ 128 := by
    unfold SimplePool.outBalance
    split <;> assumption
  refine ⟨swap_exactIn_eq pools pid pool ain aout a hpid hpool hin hout ha
    (exactIn_fits _ _ _ ha hbo), ?_⟩
  calc a * pool.outBalance ain < 2 ^ 128 * 2 ^ 128 :=
        Nat.mul_lt_mul_of_lt_of_le ha128 (Nat.le_of_lt hbo) (by positivity)
    _ = 2 ^ 256 := by norm_num

/-- **C1** witness: the §8 scenario, balances 10000/10000, `ExactIn 1000`,
on pool id `"2"`: the swap returns `Ok` with `amount_out = 909`. -/
theorem c1_exactIn_formula_witness :
    SimpleSwap.swap examplePools ⟨"2", .Near, .Nep141 "wrap.near", .ExactIn 1000⟩ =
      .ok (.Ok 1000 909) := by
  have h := (c1_exactIn_formula examplePools "2" examplePool
    .Near (.Nep141 "wrap.near") 1000 (by decide) (by rfl)
    (Or.inl rfl) (Or.inr rfl) (by decide) (by norm_num)
    (by norm_num [examplePool]) (by norm_num [examplePool])).1
  exact h.trans (by decide)

/-- **C1** counterexample to the claim as stated: the §8 pool stored under
pool id `"1"`, with both assets matching and `ExactIn 1000 > 0`, is answered
by the hard-coded stub `Error` envelope, not by `Ok` with the
constant-product output `⌊1000 · 10000 / 11000⌋ = 909`. -/
theorem c1_counterexample :
    SimpleSwap.swap poolsAtOne ⟨"1", .Near, .Nep141 "wrap.near", .ExactIn 1000⟩ =
      .ok (.Error wasmStubMessage) ∧
    SimpleSwap.swap poolsAtOne ⟨"1", .Near, .Nep141 "wrap.near", .ExactIn 1000⟩ ≠
      .ok (.Ok 1000 909) := by
  constructor
  · rfl
  · decide

/-- **C2** (amended): for every pool stored under a pool id other than the
hard-coded `"1"`, whose two assets include both `asset_in` and `asset_out`,
and every `ExactOut` request with `0 < amount_out < balance_out` whose
result `⌊balance_in · amount_out / (balance_out − amount_out)⌋ + 1` fits in
`u128`, the guest swap returns `Ok` with exactly that `amount_in` — the `+1`
is added unconditionally, also when the division is exact. -/
theorem c2_exactOut_formula
    (pools : PoolId → Option SimplePool) (pid : PoolId) (pool : SimplePool)
    (ain aout : AssetId) (w : Nat)
    (hpid : pid ≠ "1") (hpool : pools pid = some pool)
    (hin : pool.assets.1.asset_id = ain ∨ pool.assets.2.asset_id = ain)
    (hout : pool.assets.1.asset_id = aout ∨ pool.assets.2.asset_id = aout)
    (hw : 0 < w) (hlt : w < pool.outBalance ain)
    (hfit : pool.inBalance ain * w / (pool.outBalance ain - w) + 1 < 2 ^ 128) :
    SimpleSwap.swap pools ⟨pid, ain, aout, .ExactOut w⟩ =
      .ok (.Ok (pool.inBalance ain * w / (pool.outBalance ain - w) + 1) w) :=
  swap_exactOut_eq pools pid pool ain aout w hpid hpool hin hout hw hlt hfit

/-- **C2** witness: the §8 scenario, balances 10000/10000, `ExactOut 909` on
pool id `"2"`: `amount_in = ⌊10000 · 909 / 9091⌋ + 1 = 999 + 1 = 1000`. -/
theorem c2_exactOut_formula_witness :
    SimpleSwap.swap examplePools ⟨"2", .Near, .Nep141 "wrap.near", .ExactOut 909⟩ =
      .ok (.Ok 1000 909) := by
  have h := c2_exactOut_formula examplePools "2" examplePool
    .Near (.Nep141 "wrap.near") 909 (by decide) (by rfl)
    (Or.inl rfl) (Or.inr rfl) (by decide) (by decide) (by decide)
  exact h.trans (by decide)

/-- **C2** counterexample to the claim as stated, in two parts.
First, the §8 pool stored under pool id `"1"` with `ExactOut 909`
(`0 < 909 < 10000`) is answered by the hard-coded stub `Error` envelope, not
by `Ok` with `amount_in = 1000`.  Second, on a pool with `balance_in =
2^128 − 1`, `balance_out = 2` and `ExactOut 1` (`0 < 1 < 2`), the formula
value is `2^128`, the final `as_u128` cast panics, and no `Ok` is
returned. -/
theorem c2_counterexample :
    (SimpleSwap.swap poolsAtOne ⟨"1", .Near, .Nep141 "wrap.near", .ExactOut 909⟩ =
        .ok (.Error wasmStubMessage) ∧
      SimpleSwap.swap poolsAtOne ⟨"1", .Near, .Nep141 "wrap.near", .ExactOut 909⟩ ≠
        .ok (.Ok 1000 909)) ∧
    (SimpleSwap.swap maxBalancePools ⟨"2", .Near, .Nep141 "wrap.near", .ExactOut 1⟩ =
        .error castOverflowMessage ∧
      SimpleSwap.swap maxBalancePools ⟨"2", .Near, .Nep141 "wrap.near", .ExactOut 1⟩ ≠
        .ok (.Ok (2 ^ 128) 1)) := by
  refine ⟨⟨rfl, by decide⟩, ⟨by decide, by decide⟩⟩

/-- **C3** (amended): for every `ExactOut` request in which `amount_out`
equals the pool's out-side balance (the other guards passing), the guest
swap produces no `Ok` response and fails fatally — but not through a
precondition check made before the subtraction: the `U256` subtraction is
computed (yielding exactly zero; it does not wrap) and the following `U256`
division panics with the `uint` crate's division-by-zero message. -/
theorem c3_exactOut_equal_balance
    (pools : PoolId → Option SimplePool) (pid : PoolId) (pool : SimplePool)
    (ain aout : AssetId) (w : Nat)
    (hpid : pid ≠ "1") (hpool : pools pid = some pool)
    (hin : pool.assets.1.asset_id = ain ∨ pool.assets.2.asset_id = ain)
    (hout : pool.assets.1.asset_id = aout ∨ pool.assets.2.asset_id = aout)
    (hw : 0 < w) (heq : w = pool.outBalance ain) :
    SimpleSwap.swap pools ⟨pid, ain, aout, .ExactOut w⟩ =
      .error divByZeroMessage :=
  swap_exactOut_divzero pools pid pool ain aout w hpid hpool hin hout hw heq

/-- **C3** witness: `ExactOut 10000` against the 10000/10000 pool fails with
the division-by-zero panic. -/
theorem c3_exactOut_equal_balance_witness :
    SimpleSwap.swap examplePools ⟨"2", .Near, .Nep141 "wrap.near", .ExactOut 10000⟩ =
      .error divByZeroMessage :=
  c3_exactOut_equal_balance examplePools "2" examplePool
    .Near (.Nep141 "wrap.near") 10000 (by decide) (by rfl)
    (Or.inl rfl) (Or.inr rfl) (by decide) (by decide)

/-- **C3** counterexample to the claim as stated: at `amount_out =
balance_out = 10000` the failure is the `uint` division-by-zero panic —
reached only after the subtraction `balance_out − amount_out` was computed —
and not any of the guest's precondition (`require!`) failures, whose
messages are the three listed ones. -/
theorem c3_counterexample :
    SimpleSwap.swap examplePools ⟨"2", .Near, .Nep141 "wrap.near", .ExactOut 10000⟩ =
      .error divByZeroMessage ∧
    divByZeroMessage ∉
      ["Invalid asset in", "Invalid asset out", "Amount must be greater than 0"] := by
  exact ⟨by decide, by decide⟩

/-- **C4** (amended): for every pool (stored away from the hard-coded id
`"1"`) with both balances positive, every asset pair belonging to the pool
and every `ExactIn` amount `a > 0`, the swap succeeds and the computed
output satisfies `amount_out < balance_out` and
`(balance_in + amount_in) · (balance_out − amount_out) ≥
balance_in · balance_out`. -/
theorem c4_exactIn_invariants
    (pools : PoolId → Option SimplePool) (pid : PoolId) (pool : SimplePool)
    (ain aout : AssetId) (a : Nat)
    (hpid : pid ≠ "1") (hpool : pools pid = some pool)
    (hin : pool.assets.1.asset_id = ain ∨ pool.assets.2.asset_id = ain)
    (hout : pool.assets.1.asset_id = aout ∨ pool.assets.2.asset_id = aout)
    (ha : 0 < a)
    (hb1 : pool.assets.1.balance < 2 ^ 128)
    (hb2 : pool.assets.2.balance < 2 ^ 128)
    (hbi_pos : 0 < pool.inBalance ain) (hbo_pos : 0 < pool.outBalance ain) :
    SimpleSwap.swap pools ⟨pid, ain, aout, .ExactIn a⟩ =
      .ok (.Ok a (a * pool.outBalance ain / (pool.inBalance ain + a))) ∧
    a * pool.outBalance ain / (pool.inBalance ain + a) < pool.outBalance ain ∧
    pool.inBalance ain * pool.outBalance ain ≤
      (pool.inBalance ain + a) *
        (pool.outBalance ain - a * pool.outBalance ain / (pool.inBalance ain + a)) := by
  have hbo : pool.outBalance ain < 2 ^ 128 := by
    unfold SimplePool.outBalance
    split <;> assumption
  refine ⟨swap_exactIn_eq pools pid pool ain aout a hpid hpool hin hout ha
      (exactIn_fits _ _ _ ha hbo),
    exactIn_lt_outBalance _ _ _ ha hbi_pos hbo_pos,
    exactIn_constant_product _ _ _ _ rfl (exactIn_le_outBalance _ _ _ ha)⟩

/-- **C4** witness: the §8 scenario (`ExactIn 1000` on 10000/10000):
`909 < 10000` and `11000 · 9091 = 100001000 ≥ 100000000 = 10000 · 10000`. -/
theorem c4_exactIn_invariants_witness :
    SimpleSwap.swap examplePools ⟨"2", .Near, .Nep141 "wrap.near", .ExactIn 1000⟩ =
      .ok (.Ok 1000 909) ∧ (909 : Nat) < 10000 ∧
    (10000 : Nat) * 10000 ≤ (10000 + 1000) * (10000 - 909) := by
  have h := c4_exactIn_invariants examplePools "2" examplePool
    .Near (.Nep141 "wrap.near") 1000 (by decide) (by rfl)
    (Or.inl rfl) (Or.inr rfl) (by decide) (by norm_num [examplePool])
    (by norm_num [examplePool]) (by decide) (by decide)
  exact ⟨h.1.trans (by decide), by decide, by decide⟩

/-- **C4** counterexample to the claim as stated: with a zero balance on
either side the computed output violates `amount_out < balance_out` — with
`balance_in = 0`, `balance_out = 1`, `ExactIn 1` the output is `1 =
balance_out`; with `balance_in = 1`, `balance_out = 0`, `ExactIn 1` the
output is `0 = balance_out`. -/
theorem c4_counterexample :
    (SimpleSwap.swap zeroPools ⟨"z1", .Near, .Nep141 "wrap.near", .ExactIn 1⟩ =
        .ok (.Ok 1 1) ∧ ¬((1 : Nat) < zeroInPool.outBalance .Near)) ∧
    (SimpleSwap.swap zeroPools ⟨"z2", .Near, .Nep141 "wrap.near", .ExactIn 1⟩ =
        .ok (.Ok 1 0) ∧ ¬((0 : Nat) < zeroOutPool.outBalance .Near)) := by
  decide

/-- **C5** (confirmed): whenever `ExactIn x` succeeds with output `y` and
`ExactOut y` (same pool map, pool id and asset pair, hence the same original
balances) also succeeds, the recovered input `x'` satisfies `x' ≤ x + 1`. -/
theorem c5_round_trip
    (pools : PoolId → Option SimplePool) (pid : PoolId) (ain aout : AssetId)
    (x y x' y' : Nat)
    (h1 : SimpleSwap.swap pools ⟨pid, ain, aout, .ExactIn x⟩ = .ok (.Ok x y))
    (h2 : SimpleSwap.swap pools ⟨pid, ain, aout, .ExactOut y⟩ = .ok (.Ok x' y')) :
    x' ≤ x + 1 := by
  obtain ⟨pool, hpool, hx, -, hy_val⟩ :=
    swap_exactIn_ok_inv pools pid ain aout x x y h1
  obtain ⟨pool2, hpool2, hy, -, hylt, hx'⟩ :=
    swap_exactOut_ok_inv pools pid ain aout y x' y' h2
  have hpp : pool = pool2 := by
    rw [hpool] at hpool2
    exact Option.some.inj hpool2
  rw [hpp] at hy_val
  rw [hx']
  have hle := round_trip_div_le (pool2.inBalance ain) (pool2.outBalance ain)
    x y hy_val hylt
  omega

/-- **C5** witness: `ExactIn 1000` yields 909, `ExactOut 909` recovers
`1000 ≤ 1000 + 1`. -/
theorem c5_round_trip_witness :
    SimpleSwap.swap examplePools ⟨"2", .Near, .Nep141 "wrap.near", .ExactIn 1000⟩ =
      .ok (.Ok 1000 909) ∧ (1000 : Nat) ≤ 1000 + 1 :=
  ⟨by decide, c5_round_trip examplePools "2" .Near (.Nep141 "wrap.near")
    1000 909 1000 909 (by decide) (by decide)⟩

/-- **C6** (amended): for every request whose pool id is not a key of the
pool map **and is not the hard-coded `"1"`**, the guest swap returns the
error envelope with message exactly `"Pool not found"`, for any asset pair
and amount. -/
theorem c6_pool_not_found
    (pools : PoolId → Option SimplePool) (pid : PoolId) (ain aout : AssetId)
    (amount : SwapRequestAmount)
    (hpid : pid ≠ "1") (hpool : pools pid = none) :
    SimpleSwap.swap pools ⟨pid, ain, aout, amount⟩ =
      .ok (.Error "Pool not found") := by
  unfold SimpleSwap.swap
  simp only [hpid, hpool, ite_false, if_false]

/-- **C6** witness: an unknown pool id `"9"` on the empty pool map. -/
theorem c6_pool_not_found_witness :
    SimpleSwap.swap emptyPools ⟨"9", .Near, .Near, .ExactIn 5⟩ =
      .ok (.Error "Pool not found") :=
  c6_pool_not_found emptyPools "9" .Near .Near (.ExactIn 5) (by decide) rfl

/-- **C6** counterexample to the claim as stated: pool id `"1"` is not a key
of the empty pool map, yet the guest answers with the hard-coded stub
message, not with `"Pool not found"`. -/
theorem c6_counterexample :
    SimpleSwap.swap emptyPools ⟨"1", .Near, .Nep141 "wrap.near", .ExactIn 1⟩ =
      .ok (.Error wasmStubMessage) ∧
    SimpleSwap.swap emptyPools ⟨"1", .Near, .Nep141 "wrap.near", .ExactIn 1⟩ ≠
      .ok (.Error "Pool not found") :=
  ⟨rfl, by decide⟩

/-- The only trap message an implemented host function can produce
(`read_register` on an absent register) is not an unimplemented-function
message: the lengths differ. -/
lemma invalid_register_ne_unimp (n : String) :
    "Invalid register" ≠ unimplementedMessage n := by
  intro h
  have hlen := congrArg String.length h
  rw [unimplementedMessage, String.length_append, String.length_append] at hlen
  have h16 : ("Invalid register").length = 16 := rfl
  have h9 : ("Function ").length = 9 := rfl
  have h19 : (" is not implemented").length = 19 := rfl
  omega

/-- Inversion of a trapping host call: either it was a call of an
unimplemented catalog stub with its naming message, or it was
`read_register` on an absent register. -/
lemma hostStep_error_inv (c : HostCall) (s : RunnerData) (e : String)
    (h : hostStep c s = .error e) :
    (∃ n, c = .callUnimplemented n ∧ e = unimplementedMessage n) ∨
      e = "Invalid register" := by
  cases c with
  | read_register r =>
      right
      rcases hreg : s.registers r with _ | v
      · simp only [hostStep, hreg, Except.error.injEq] at h
        exact h.symm
      · simp [hostStep, hreg] at h
  | callUnimplemented n =>
      exact Or.inl ⟨n, rfl, (Except.error.inj h).symm⟩
  | storage_write k v r =>
      rcases hst : s.persistent_storage k with _ | old <;>
        simp [hostStep, hst] at h
  | storage_read k r =>
      rcases hst : s.persistent_storage k with _ | old <;>
        simp [hostStep, hst] at h
  | storage_remove k r =>
      rcases hst : s.persistent_storage k with _ | old <;>
        simp [hostStep, hst] at h
  | _ => exact absurd h (by simp [hostStep])

/-- A trace that never calls an unimplemented stub never fails with an
unimplemented-function trap message. -/
lemma runTrace_no_unimp_error (ops : List HostCall) (s : RunnerData) (n : String)
    (hops : ∀ m, HostCall.callUnimplemented m ∉ ops) :
    runTrace ops s ≠ .error (unimplementedMessage n) := by
  induction ops generalizing s with
  | nil => simp [runTrace]
  | cons c cs ih =>
      intro h
      simp only [runTrace] at h
      rcases hstep : hostStep c s with e | s'
      · rw [hstep] at h
        rcases hostStep_error_inv c s e hstep with ⟨m, hm, -⟩ | hm
        · exact hops m (hm ▸ List.mem_cons_self c cs)
        · exact invalid_register_ne_unimp n
            (by rw [← hm]; exact Except.error.inj h)
      · rw [hstep] at h
        exact ih s' (fun m hm => hops m (List.mem_cons_of_mem c hm)) h

/-- The first call of an unimplemented stub aborts the whole invocation with
the message naming it, whatever follows in the trace. -/
lemma runTrace_first_unimp (pre : List HostCall) (name : String)
    (rest : List HostCall) (s s' : RunnerData)
    (hpre : runTrace pre s = .ok s') :
    runTrace (pre ++ HostCall.callUnimplemented name :: rest) s =
      .error (unimplementedMessage name) := by
  induction pre generalizing s with
  | nil => rfl
  | cons c cs ih =>
      simp only [List.cons_append, runTrace] at hpre ⊢
      rcases hstep : hostStep c s with e | s2
      · rw [hstep] at hpre
        exact absurd hpre (by simp)
      · rw [hstep] at hpre
        exact ih s2 hpre

/-- Every catalog entry resolves to the trap stub with its naming message. -/
lemma catalog_links :
    ∀ n ∈ unimplementedCatalog,
      hostFunctionSurface n = some (.trap (unimplementedMessage n)) := by
  decide

/-- **C7** (amended): `panic` and `panic_utf8` record an error
`SwapResponse` carrying the message as the call's response — but the host
does not stop guest execution (the host function returns normally; halting
relies on the guest's own code trapping after the call), later host calls in
the same invocation remain observable, and `value_return` unconditionally
overwrites whatever response was recorded. -/
theorem c7_panic_records_response :
    ∀ (s : RunnerData) (m : String) (v : SwapResponse),
      hostStep (.panic_utf8 m) s = .ok { s with response := some (.Error m) } ∧
      hostStep .panic s = .ok { s with response := some (.Error "panicked") } ∧
      hostStep (.value_return v) s = .ok { s with response := some v } :=
  fun _ _ _ => ⟨rfl, rfl, rfl⟩

/-- **C7** counterexample to the claim as stated: after a `panic` host call
has recorded the error response, a later `value_return` in the same
invocation is executed and observed — it overwrites the recorded error with
a success response, so the error response was not final and guest execution
was not stopped by the host. -/
theorem c7_counterexample :
    responseAfter [HostCall.panic, HostCall.value_return (.Ok 5 7)]
      (initialRunnerData "alice.near") = some (.Ok 5 7) ∧
    responseAfter [HostCall.panic] (initialRunnerData "alice.near") =
      some (.Error "panicked") ∧
    SwapResponse.Ok 5 7 ≠ .Error "panicked" :=
  ⟨rfl, rfl, by decide⟩

/-- **C8** (confirmed): (1) every name of the declared-but-unimplemented
catalog resolves at link time (to the trap stub naming it), so a module
importing any of them instantiates; (2) a run that never calls one of the
stubs never fails with an unimplemented-function trap; (3) the first actual
call of a stub aborts the entire invocation with the fatal trap message
naming the missing function, regardless of what follows. -/
theorem c8_unimplemented_catalog :
    (∀ n ∈ unimplementedCatalog,
      hostFunctionSurface n = some (.trap (unimplementedMessage n))) ∧
    (∀ (ops : List HostCall) (s : RunnerData) (n : String),
      (∀ m, HostCall.callUnimplemented m ∉ ops) →
      runTrace ops s ≠ .error (unimplementedMessage n)) ∧
    (∀ (pre : List HostCall) (name : String) (rest : List HostCall)
      (s s' : RunnerData), runTrace pre s = .ok s' →
      runTrace (pre ++ HostCall.callUnimplemented name :: rest) s =
        .error (unimplementedMessage name)) :=
  ⟨catalog_links,
   fun ops s n hops => runTrace_no_unimp_error ops s n hops,
   fun pre name rest s s' hpre => runTrace_first_unimp pre name rest s s' hpre⟩

/-- **C8** witness: `sha256` links as a trap stub, and calling it as the
first host call aborts the invocation naming it, even with further calls
queued after it. -/
theorem c8_unimplemented_catalog_witness :
    hostFunctionSurface "sha256" =
      some (.trap (unimplementedMessage "sha256")) ∧
    runTrace (HostCall.callUnimplemented "sha256" :: [HostCall.panic])
      (initialRunnerData "alice.near") =
      .error (unimplementedMessage "sha256") :=
  ⟨c8_unimplemented_catalog.1 "sha256" (by decide),
   c8_unimplemented_catalog.2.2 [] "sha256" [HostCall.panic]
     (initialRunnerData "alice.near") (initialRunnerData "alice.near") rfl⟩

/-- **C9** (confirmed): for every caller, the per-call state is built with
the one fixed synthesized request — pool id `"1"`, native asset in, Nep141
`wrap.near` out, `ExactIn 10^24` — and the `input` host function serializes
exactly that fixed request into the chosen register, a payload that does not
depend on the caller (nor on the `dex_id`, which `initialRunnerData` never
receives); only `predecessor_account_id` writes caller-dependent data. -/
theorem c9_fixed_request :
    ∀ (caller : String) (r : Nat),
      hostStep (.input r) (initialRunnerData caller) =
        .ok { initialRunnerData caller with
              registers := insertReg r (serializeRequest synthesizedSwapRequest)
                (fun _ => none) } ∧
      (initialRunnerData caller).request = synthesizedSwapRequest ∧
      synthesizedSwapRequest =
        { pool_id := "1", asset_in := .Near,
          asset_out := .Nep141 "wrap.near",
          amount := .ExactIn 1000000000000000000000000 } ∧
      hostStep (.predecessor_account_id r) (initialRunnerData caller) =
        .ok { initialRunnerData caller with
              registers := insertReg r caller (fun _ => none) } :=
  fun _ _ => ⟨rfl, rfl, rfl, rfl⟩

/-- **C10** (confirmed): with any attached deposit other than exactly one
yoctoNEAR, the host's swap entry point fails with the `assert_one_yocto`
panic — for every engine state (even one holding no code for the dex, so the
failure precedes the code lookup and load) and every guest-execution
capability — and no success result carrying a (possibly updated) engine
state is produced, so registry, balances and storage are untouched. -/
theorem c10_one_yocto_guard :
    ∀ (runGuest : List Nat → RunnerData → Except String RunnerData)
      (st : EngineState) (dep : Nat) (caller : String) (dex_id : DexId),
      dep ≠ 1 →
      SandboxedDexEngine.swapEntry runGuest st dep caller dex_id =
        .error assertOneYoctoMessage ∧
      ∀ (v : Nat) (st' : EngineState),
        SandboxedDexEngine.swapEntry runGuest st dep caller dex_id ≠
          .ok (v, st') := by
  intro rg st dep caller did hdep
  have h : SandboxedDexEngine.swapEntry rg st dep caller did =
      .error assertOneYoctoMessage := by
    unfold SandboxedDexEngine.swapEntry
    rw [if_pos hdep]
  refine ⟨h, fun v st' hc => ?_⟩
  rw [h] at hc
  exact Except.noConfusion hc

/-- **C10** witness: a zero deposit on an engine state with no stored code
fails with the one-yocto message, not with the code-lookup failure. -/
theorem c10_one_yocto_guard_witness :
    SandboxedDexEngine.swapEntry (fun _ s => .ok s)
      ⟨fun _ => none, fun _ => none, fun _ => none⟩ 0 "alice.near"
      ⟨"alice.near", "example"⟩ = .error assertOneYoctoMessage :=
  (c10_one_yocto_guard (fun _ s => .ok s)
    ⟨fun _ => none, fun _ => none, fun _ => none⟩ 0 "alice.near"
    ⟨"alice.near", "example"⟩ (by decide)).1

end Dex
